import Mathlib

/-!
# Verification of the SecureSocket secure-transport layer

Shallow embedding of `src/lib/plugin/ns/SecureSocket.cpp` (synergy):
the TLS error-classification logic (`checkResult`), the non-blocking
handshake steps (`secureConnect`/`secureAccept`), the plaintext read/write
forwarders, the teardown paths (destructor and `close`), and the
certificate-fingerprint formatting and trust-store lookup.

External OpenSSL calls (`SSL_connect`, `SSL_read`, `X509_digest`, ...) are
modelled as oracle inputs: each step function receives the engine's reported
outcome as a parameter and the embedding reproduces the source's control
flow on that outcome.  File I/O (the trust-store file) is modelled as an
`Option (List String)`: `none` for an absent/unreadable file, `some lines`
for its lines.
-/

namespace SecureSocket

/-- Result of `SSL_get_error` on an operation's status, as the `switch` in
`SecureSocket::checkResult` distinguishes the cases.  `noneErr` is
`SSL_ERROR_NONE`, `zeroReturn` is `SSL_ERROR_ZERO_RETURN`, the four `want*`
cases are the retryable flow-control signals, `syscall` is
`SSL_ERROR_SYSCALL`, `sslErr` is `SSL_ERROR_SSL`, and `unknown` stands for
any other code (the `default` branch). -/
inductive SslError where
  | noneErr
  | zeroReturn
  | wantRead
  | wantWrite
  | wantConnect
  | wantAccept
  | syscall
  | sslErr
  | unknown
  deriving DecidableEq, Repr

/-- The retryable ("want") classifications. -/
def SslError.isWant : SslError → Bool
  | .wantRead | .wantWrite | .wantConnect | .wantAccept => true
  | _ => false

/-- Per-instance state of a `SecureSocket`: `m_secureReady`, `m_fatal`,
`m_maxRetry`, and whether `m_ssl->m_ssl` is non-null (`sslPresent`).
Note that the retry counter is deliberately NOT a field here: in the source
it is a function-local `static int retry`, i.e. state shared across all
instances, and the embedding threads it separately. -/
structure SecState where
  secureReady : Bool
  fatal : Bool
  maxRetry : Nat
  sslPresent : Bool
  deriving DecidableEq, Repr

/-- Embedding of `SecureSocket::isSecureReady` (SecureSocket.cpp:172-176): returns
`m_secureReady`. -/
def isSecureReady (s : SecState) : Bool :=
  s.secureReady

/-- Embedding of `SecureSocket::checkResult` (SecureSocket.cpp:399-472).
Input: the instance state, the `SSL_get_error` classification of the
operation, and the current value of the caller's `retry` counter.
Output: the new instance state, the new `retry` value, and whether
`disconnect()` was invoked.  The `switch` updates `retry`/`m_fatal`;
then `retry > maxRetry()` forces fatal; finally, if `isFatal()` holds
(including a fatal flag carried in from before the call), `retry` is
zeroed, the error is surfaced and `disconnect()` runs. -/
def checkResult (s : SecState) (err : SslError) (retry : Nat) :
    SecState × Nat × Bool :=
  let retry1 :=
    match err with
    | .noneErr => 0
    | .wantRead | .wantWrite | .wantConnect | .wantAccept => retry + 1
    | _ => retry
  let fatal1 :=
    match err with
    | .noneErr => s.fatal
    | .wantRead | .wantWrite | .wantConnect | .wantAccept => s.fatal
    | _ => true
  let fatal2 := if retry1 > s.maxRetry then true else fatal1
  if fatal2 then
    ({ s with fatal := true }, 0, true)
  else
    ({ s with fatal := fatal1 }, retry1, false)

/-- Embedding of `SecureSocket::secureRead` (SecureSocket.cpp:119-143).
Oracle inputs: `engineErr` is the classification of the `SSL_read` result,
`engineRead` the byte count `SSL_read` returned, `readIn` the incoming value
of the by-reference out-parameter `read` (returned unchanged when the SSL
handle is null, as in the source).  Output: new state, new static `retry`,
the function's return value, and whether the engine-level `SSL_read` was
performed.  The only gate in the source is `m_ssl->m_ssl != NULL`. -/
def secureRead (s : SecState) (retry : Nat) (engineErr : SslError)
    (engineRead : Int) (readIn : Int) : SecState × Nat × Int × Bool :=
  if s.sslPresent then
    let r := checkResult s engineErr retry
    if r.2.1 ≠ 0 then (r.1, r.2.1, 0, true)
    else if r.1.fatal then (r.1, r.2.1, -1, true)
    else (r.1, r.2.1, engineRead, true)
  else
    (s, retry, readIn, false)

/-- Embedding of `SecureSocket::secureWrite` (SecureSocket.cpp:145-170): mirror of
`secureRead` for `SSL_write`, with its own static `retry` counter. -/
def secureWrite (s : SecState) (retry : Nat) (engineErr : SslError)
    (engineWrote : Int) (wroteIn : Int) : SecState × Nat × Int × Bool :=
  if s.sslPresent then
    let r := checkResult s engineErr retry
    if r.2.1 ≠ 0 then (r.1, r.2.1, 0, true)
    else if r.1.fatal then (r.1, r.2.1, -1, true)
    else (r.1, r.2.1, engineWrote, true)
  else
    (s, retry, wroteIn, false)

/-- Embedding of `SecureSocket::secureConnect(int)` (SecureSocket.cpp:324-375).
Oracle inputs: `connectErr` classifies the `SSL_connect` result,
`verifyOk` is the value `verifyCertFingerprint()` returns and `showCertOk`
the value `showCertificate()` returns when reached.  Output: new state,
new static `retry`, the return value (1 ok, 0 retry, -1 error), and whether
`disconnect()` was invoked during the call.  The source sets
`m_secureReady = true` BEFORE fingerprint verification and does not clear
it on verification failure. -/
def secureConnectStep (s : SecState) (retry : Nat) (connectErr : SslError)
    (verifyOk showCertOk : Bool) : SecState × Nat × Int × Bool :=
  let s0 := { s with sslPresent := true }
  let r := checkResult s0 connectErr retry
  let s1 := r.1
  let retry1 := r.2.1
  let d := r.2.2
  if s1.fatal then (s1, retry1, -1, d)
  else if retry1 > 0 then ({ s1 with secureReady := false }, retry1, 0, d)
  else
    let s2 := { s1 with secureReady := true }
    if verifyOk then
      if showCertOk then (s2, retry1, 1, d)
      else (s2, retry1, -1, true)
    else (s2, retry1, -1, true)

/-- Embedding of `SecureSocket::secureAccept(int)` (SecureSocket.cpp:273-322).
On fatal: `m_secureReady = false`, return -1.  On `retry == 0`:
`m_secureReady = true`, return 1.  On `retry > 0`: `m_secureReady = false`,
return 0. -/
def secureAcceptStep (s : SecState) (retry : Nat) (acceptErr : SslError) :
    SecState × Nat × Int × Bool :=
  let s0 := { s with sslPresent := true }
  let r := checkResult s0 acceptErr retry
  let s1 := r.1
  let retry1 := r.2.1
  let d := r.2.2
  if s1.fatal then ({ s1 with secureReady := false }, retry1, -1, d)
  else if retry1 = 0 then ({ s1 with secureReady := true }, retry1, 1, d)
  else ({ s1 with secureReady := false }, retry1, 0, d)

/-! ## Two instances sharing the function-local static retry counter

`SecureSocket::secureConnect(int)` declares `static int retry;`
(SecureSocket.cpp:335): this is a single process-wide counter shared by
every `SecureSocket` instance that runs `secureConnect`.  `TwoSockets`
models two instances `a` and `b` together with that shared static. -/

/-- Two `SecureSocket` instances and the single `static int retry` of
`secureConnect(int)` that both of them read and write. -/
structure TwoSockets where
  a : SecState
  b : SecState
  connectRetry : Nat
  deriving DecidableEq, Repr

/-- Run one `secureConnect(int)` step on instance `a`; the static counter
`connectRetry` is read and written by the call. -/
def connectOnA (w : TwoSockets) (err : SslError) (verifyOk showCertOk : Bool) :
    TwoSockets :=
  let r := secureConnectStep w.a w.connectRetry err verifyOk showCertOk
  { w with a := r.1, connectRetry := r.2.1 }

/-- Run one `secureConnect(int)` step on instance `b`; it uses the same
static counter `connectRetry` as instance `a`. -/
def connectOnB (w : TwoSockets) (err : SslError) (verifyOk showCertOk : Bool) :
    TwoSockets :=
  let r := secureConnectStep w.b w.connectRetry err verifyOk showCertOk
  { w with b := r.1, connectRetry := r.2.1 }

/-! ## Teardown: destructor and close -/

/-- The engine-level calls teardown can make: `SSL_shutdown`, `SSL_free`,
`SSL_CTX_free`. -/
inductive EngineOp where
  | shutdown
  | freeSsl
  | freeCtx
  deriving DecidableEq, Repr

/-- The two exclusively-owned handles of the `Ssl` struct
(SecureSocket.cpp:50-53): `ssl` is whether `m_ssl->m_ssl` is non-null
(the connection handle), `ctx` whether `m_ssl->m_context` is non-null
(the engine context). -/
structure SslHandles where
  ssl : Bool
  ctx : Bool
  deriving DecidableEq, Repr

/-- Embedding of `SecureSocket::~SecureSocket` (SecureSocket.cpp:76-91): sets the fatal
flag; if the connection handle is non-null, shuts it down, frees it and
nulls it; if the context is non-null, frees it and nulls it.  Returns the
new fatal flag, the new handles, and the engine operations performed in
order. -/
def destructorStep (fatal : Bool) (h : SslHandles) :
    Bool × SslHandles × List EngineOp :=
  let p1 :=
    if h.ssl then ({ h with ssl := false }, [EngineOp.shutdown, EngineOp.freeSsl])
    else (h, ([] : List EngineOp))
  let p2 :=
    if p1.1.ctx then ({ p1.1 with ctx := false }, [EngineOp.freeCtx])
    else (p1.1, ([] : List EngineOp))
  (true, p2.1, p1.2 ++ p2.2)

/-- Embedding of `SecureSocket::close` (SecureSocket.cpp:93-101): sets the fatal flag and
calls `SSL_shutdown(m_ssl->m_ssl)` unconditionally — with no null check on
the connection handle — then delegates to `TCPSocket::close()`.  It frees
neither handle. -/
def closeStep (fatal : Bool) (h : SslHandles) :
    Bool × SslHandles × List EngineOp :=
  (true, h, [EngineOp.shutdown])

/-! ## Fingerprint formatting

`synergy::string::toHex` and `synergy::string::uppercase` live in
`lib/base/String.cpp`, which is not part of this repository snapshot; they
are modelled from the spec.  `formatFingerprint` itself is embedded from
the source. -/

/-- The sixteen lowercase hexadecimal digit characters. -/
def lowerHexChars : List Char :=
  "0123456789abcdef".toList

/-- The sixteen uppercase hexadecimal digit characters. -/
def upperHexChars : List Char :=
  "0123456789ABCDEF".toList

/-- Modelled from the spec: `synergy::string::toHex(s, 2)` (declared in
`lib/base/String.h`, body not under `src/`) hex-encodes each byte of the
string as two lowercase hexadecimal characters, high nibble first. -/
def toHexByte (b : Nat) : List Char :=
  [lowerHexChars.getD (b / 16 % 16) 'x', lowerHexChars.getD (b % 16) 'x']

/-- Modelled from the spec: the whole-string hex encoding performed by
`synergy::string::toHex`. -/
def toHex (bs : List Nat) : List Char :=
  (bs.map toHexByte).flatten

/-- Modelled from the spec: `synergy::string::uppercase` (body not under
`src/`) uppercases every character of the string. -/
def uppercase (s : List Char) : List Char :=
  s.map Char.toUpper

/-- The separator-insertion loop of `SecureSocket::formatFingerprint`
(SecureSocket.cpp:521-527): `separators = size / 2`, then for
`i = 1 .. separators-1` insert `":"` at index `i * 3 - 1` of the growing
string. -/
def insertSeparators (fp : List Char) : List Char :=
  (List.range' 1 (fp.length / 2 - 1)).foldl
    (fun acc i => acc.insertIdx (i * 3 - 1) ':') fp

/-- Embedding of `SecureSocket::formatFingerprint` (SecureSocket.cpp:510-528) at its call
site (`hex` and `separator` both true): hex-encode, uppercase, insert the
colon separators. -/
def formatFingerprint (bs : List Nat) : List Char :=
  insertSeparators (uppercase (toHex bs))

/-- Modelled from the spec's words, for comparison with the source's
`formatFingerprint`: one byte of the canonical form is its two-character
uppercase hexadecimal group, high nibble first. -/
def specHexPair (b : Nat) : List Char :=
  [upperHexChars.getD (b / 16 % 16) 'x', upperHexChars.getD (b % 16) 'x']

/-- Modelled from the spec's words, for comparison with the source's
`formatFingerprint`: the canonical fingerprint form, the uppercase
two-character hexadecimal groups of the bytes joined by `':'`. -/
def specCanonicalFingerprint (bs : List Nat) : List Char :=
  List.intercalate [':'] (bs.map specHexPair)

/-! ## Trust-store lookup -/

/-- The trust-store scan at the end of `SecureSocket::verifyCertFingerprint`
(SecureSocket.cpp:558-575).  The file is `none` when absent/unreadable (the
`while` guard `file.is_open()` is then false and the loop never runs, so the
result is the initial `isValid = false`); otherwise its lines are scanned in
order: empty lines are skipped, and the first line equal to the fingerprint
makes the result true. -/
def isTrusted (file : Option (List (List Char))) (fingerprint : List Char) :
    Bool :=
  match file with
  | none => false
  | some lines => lines.any (fun l => !l.isEmpty && l == fingerprint)

/-- Embedding of `SecureSocket::verifyCertFingerprint` (SecureSocket.cpp:530-576).
`cert` is the `SSL_get_peer_certificate` result (`none` when the peer
offered no certificate).  The source performs no null check on `cert`: the
handle is passed straight to `X509_digest`, whose reported outcome is the
oracle pair `digestResult` / `digestBytes`.  Returns the boolean result and
whether the digest call was performed on the peer-certificate handle. -/
def verifyCertFingerprint (cert : Option Unit) (digestResult : Int)
    (digestBytes : List Nat) (store : Option (List (List Char))) :
    Bool × Bool :=
  let digestPerformed := true
  if digestResult ≤ 0 then (false, digestPerformed)
  else (isTrusted store (formatFingerprint digestBytes), digestPerformed)

/-! ## Helper lemmas -/

/-- Uppercasing a lowercase hexadecimal digit character yields the
corresponding uppercase hexadecimal digit character. -/
theorem toUpper_lowerHex (m : Nat) (h : m < 16) :
    Char.toUpper (lowerHexChars.getD m 'x') = upperHexChars.getD m 'x' := by
  interval_cases m <;> rfl

/-- Uppercasing one byte's lowercase hex pair yields the spec's uppercase
hex pair. -/
theorem uppercase_toHexByte (b : Nat) :
    uppercase (toHexByte b) = specHexPair b := by
  show [Char.toUpper (lowerHexChars.getD (b / 16 % 16) 'x'),
        Char.toUpper (lowerHexChars.getD (b % 16) 'x')] = _
  rw [toUpper_lowerHex _ (Nat.mod_lt _ (by omega)),
    toUpper_lowerHex _ (Nat.mod_lt _ (by omega))]
  rfl

/-- Uppercasing distributes over list concatenation. -/
theorem uppercase_append (a b : List Char) :
    uppercase (a ++ b) = uppercase a ++ uppercase b :=
  List.map_append _ _ _

/-- Uppercasing the hex encoding of a byte list yields the flattened
uppercase hex pairs. -/
theorem uppercase_toHex (bs : List Nat) :
    uppercase (toHex bs) = (bs.map specHexPair).flatten := by
  induction bs with
  | nil => rfl
  | cons b t ih =>
      show uppercase (toHexByte b ++ toHex t) =
        specHexPair b ++ (t.map specHexPair).flatten
      rw [uppercase_append, uppercase_toHexByte, ih]

/-- The separator-insertion loop on a forty-character string places a colon
between every two characters. -/
theorem insertSeparators_forty (x0 x1 x2 x3 x4 x5 x6 x7 x8 x9 x10 x11 x12 x13 x14 x15 x16 x17 x18 x19 x20 x21 x22 x23 x24 x25 x26 x27 x28 x29 x30 x31 x32 x33 x34 x35 x36 x37 x38 x39 : Char) :
    insertSeparators [x0, x1, x2, x3, x4, x5, x6, x7, x8, x9, x10, x11, x12, x13, x14, x15, x16, x17, x18, x19, x20, x21, x22, x23, x24, x25, x26, x27, x28, x29, x30, x31, x32, x33, x34, x35, x36, x37, x38, x39] = [x0, x1, ':', x2, x3, ':', x4, x5, ':', x6, x7, ':', x8, x9, ':', x10, x11, ':', x12, x13, ':', x14, x15, ':', x16, x17, ':', x18, x19, ':', x20, x21, ':', x22, x23, ':', x24, x25, ':', x26, x27, ':', x28, x29, ':', x30, x31, ':', x32, x33, ':', x34, x35, ':', x36, x37, ':', x38, x39] := by
  show (List.range' 1 ([x0, x1, x2, x3, x4, x5, x6, x7, x8, x9, x10, x11, x12, x13, x14, x15, x16, x17, x18, x19, x20, x21, x22, x23, x24, x25, x26, x27, x28, x29, x30, x31, x32, x33, x34, x35, x36, x37, x38, x39].length / 2 - 1)).foldl
      (fun acc i => acc.insertIdx (i * 3 - 1) ':') [x0, x1, x2, x3, x4, x5, x6, x7, x8, x9, x10, x11, x12, x13, x14, x15, x16, x17, x18, x19, x20, x21, x22, x23, x24, x25, x26, x27, x28, x29, x30, x31, x32, x33, x34, x35, x36, x37, x38, x39] = [x0, x1, ':', x2, x3, ':', x4, x5, ':', x6, x7, ':', x8, x9, ':', x10, x11, ':', x12, x13, ':', x14, x15, ':', x16, x17, ':', x18, x19, ':', x20, x21, ':', x22, x23, ':', x24, x25, ':', x26, x27, ':', x28, x29, ':', x30, x31, ':', x32, x33, ':', x34, x35, ':', x36, x37, ':', x38, x39]
  norm_num
  rfl

/-! ## Claim theorems -/

/-- C7: for every raw 20-byte digest, `formatFingerprint` produces the
canonical form: the hex encoding of the bytes, uppercased, with a colon
inserted between every two-character byte pair — exactly the spec's
canonical fingerprint (20 two-character uppercase hex groups joined by
colons), 59 characters in total. -/
theorem formatFingerprint_canonical (b0 b1 b2 b3 b4 b5 b6 b7 b8 b9 b10 b11 b12 b13 b14 b15 b16 b17 b18 b19 : Nat) :
    formatFingerprint [b0, b1, b2, b3, b4, b5, b6, b7, b8, b9, b10, b11, b12, b13, b14, b15, b16, b17, b18, b19] =
      specCanonicalFingerprint [b0, b1, b2, b3, b4, b5, b6, b7, b8, b9, b10, b11, b12, b13, b14, b15, b16, b17, b18, b19] ∧
    (formatFingerprint [b0, b1, b2, b3, b4, b5, b6, b7, b8, b9, b10, b11, b12, b13, b14, b15, b16, b17, b18, b19]).length = 59 := by
  have e : formatFingerprint [b0, b1, b2, b3, b4, b5, b6, b7, b8, b9, b10, b11, b12, b13, b14, b15, b16, b17, b18, b19] =
      specCanonicalFingerprint [b0, b1, b2, b3, b4, b5, b6, b7, b8, b9, b10, b11, b12, b13, b14, b15, b16, b17, b18, b19] := by
    rw [formatFingerprint, uppercase_toHex]
    exact insertSeparators_forty _ _ _ _ _ _ _ _ _ _ _ _ _ _ _ _ _ _ _ _ _ _ _ _ _ _ _ _ _ _ _ _ _ _ _ _ _ _ _ _
  exact ⟨e, by rw [e]; rfl⟩

/-- C8: when the trust-store file is absent or unreadable (`none`), the
membership test returns false for every queried fingerprint; the scan is a
total function, so absence of the file is not an error. -/
theorem isTrusted_missing_file_false (fp : List Char) :
    isTrusted none fp = false :=
  rfl

/-- C9: round-trip of the trust store for canonical fingerprints: if the
file contains a line exactly equal to the canonical fingerprint the
membership test returns true, and if every line differs from it the
membership test returns false. -/
theorem isTrusted_roundtrip (b0 b1 b2 b3 b4 b5 b6 b7 b8 b9 b10 b11 b12 b13 b14 b15 b16 b17 b18 b19 : Nat) (lines : List (List Char)) :
    (specCanonicalFingerprint [b0, b1, b2, b3, b4, b5, b6, b7, b8, b9, b10, b11, b12, b13, b14, b15, b16, b17, b18, b19] ∈ lines →
      isTrusted (some lines) (specCanonicalFingerprint [b0, b1, b2, b3, b4, b5, b6, b7, b8, b9, b10, b11, b12, b13, b14, b15, b16, b17, b18, b19]) = true) ∧
    ((∀ l ∈ lines, l ≠ specCanonicalFingerprint [b0, b1, b2, b3, b4, b5, b6, b7, b8, b9, b10, b11, b12, b13, b14, b15, b16, b17, b18, b19]) →
      isTrusted (some lines) (specCanonicalFingerprint [b0, b1, b2, b3, b4, b5, b6, b7, b8, b9, b10, b11, b12, b13, b14, b15, b16, b17, b18, b19]) = false) := by
  have hne : (specCanonicalFingerprint [b0, b1, b2, b3, b4, b5, b6, b7, b8, b9, b10, b11, b12, b13, b14, b15, b16, b17, b18, b19]).isEmpty = false := rfl
  constructor
  · intro hmem
    simp only [isTrusted, List.any_eq_true]
    exact ⟨_, hmem, by simp [hne]⟩
  · intro hall
    simp only [isTrusted, List.any_eq_false]
    intro l hl
    have h := hall l hl
    simp [h]

/-- Witness for C9 at concrete inputs: the all-zero canonical fingerprint
is found when it is a line of the file, and is not found when the file's
only line differs from it. -/
theorem isTrusted_roundtrip_witness :
    isTrusted (some [specCanonicalFingerprint [0, 0, 0, 0, 0, 0, 0, 0, 0, 0, 0, 0, 0, 0, 0, 0, 0, 0, 0, 0]])
      (specCanonicalFingerprint [0, 0, 0, 0, 0, 0, 0, 0, 0, 0, 0, 0, 0, 0, 0, 0, 0, 0, 0, 0]) = true ∧
    isTrusted (some [['A']])
      (specCanonicalFingerprint [0, 0, 0, 0, 0, 0, 0, 0, 0, 0, 0, 0, 0, 0, 0, 0, 0, 0, 0, 0]) = false :=
  ⟨(isTrusted_roundtrip 0 0 0 0 0 0 0 0 0 0 0 0 0 0 0 0 0 0 0 0 _).1 (by simp),
   (isTrusted_roundtrip 0 0 0 0 0 0 0 0 0 0 0 0 0 0 0 0 0 0 0 0 [['A']]).2 (by decide)⟩

/-- C10: empty lines in the trust-store file never grant trust: the scan
skips empty lines, so a query with the empty string as fingerprint returns
false for every file content, blank lines included. -/
theorem isTrusted_empty_fingerprint_false (lines : List (List Char)) :
    isTrusted (some lines) [] = false := by
  simp only [isTrusted, List.any_eq_false]
  intro l hl
  cases l <;> simp

/-- C1 (code defect): a client handshake whose engine-level negotiation
completes (`SSL_ERROR_NONE`) but whose formatted fingerprint is absent from
the trust store returns the error result -1 and fires the disconnect
events, yet `isSecureReady()` afterwards returns TRUE and the fatal flag
stays false: the source sets `m_secureReady = true` before running
`verifyCertFingerprint` and never clears it on verification failure, so the
untrusted peer IS left in the Ready state, contradicting the claim. -/
theorem secureConnect_untrusted_peer_left_ready :
    (verifyCertFingerprint (some ()) 1 (List.replicate 20 171) none).1 = false ∧
    (secureConnectStep ⟨false, false, 100000, true⟩ 0 SslError.noneErr
        ((verifyCertFingerprint (some ()) 1 (List.replicate 20 171) none).1) true).2.2.1 = -1 ∧
    (secureConnectStep ⟨false, false, 100000, true⟩ 0 SslError.noneErr
        ((verifyCertFingerprint (some ()) 1 (List.replicate 20 171) none).1) true).2.2.2 = true ∧
    isSecureReady (secureConnectStep ⟨false, false, 100000, true⟩ 0 SslError.noneErr
        ((verifyCertFingerprint (some ()) 1 (List.replicate 20 171) none).1) true).1 = true ∧
    (secureConnectStep ⟨false, false, 100000, true⟩ 0 SslError.noneErr
        ((verifyCertFingerprint (some ()) 1 (List.replicate 20 171) none).1) true).1.fatal = false := by
  decide

/-- C2 (code defect): the retry counter is NOT instance-local.  Starting
from a fresh world, four retryable `secureConnect` steps on instance `a`
leave instance `b`'s member state untouched but raise the shared
function-local static counter to 4; `b`'s next retryable step (with
`m_maxRetry = 3`) is then forced Fatal, whereas the same single step from
the fresh world is not — instance `a`'s operations changed instance `b`'s
retry-bound decision. -/
theorem connect_retry_static_shared_across_instances :
    let w0 : TwoSockets := ⟨⟨false, false, 100000, true⟩, ⟨false, false, 3, true⟩, 0⟩
    let w4 := connectOnA (connectOnA (connectOnA (connectOnA w0
        SslError.wantRead true true) SslError.wantRead true true)
        SslError.wantRead true true) SslError.wantRead true true
    w4.b = w0.b ∧ w0.connectRetry = 0 ∧ w4.connectRetry = 4 ∧
    (connectOnB w4 SslError.wantRead true true).b.fatal = true ∧
    (connectOnB w0 SslError.wantRead true true).b.fatal = false := by
  decide

/-- C3 counterexample: entering a classification pass with the retry
counter already above the bound (counter 4, bound 3) while the operation
result classifies as Success (`SSL_ERROR_NONE`) does NOT force Fatal and
triggers no teardown: the Success branch zeroes the counter before the
bound check, so the claim as stated fails at this input. -/
theorem checkResult_success_overflow_not_fatal :
    4 > 3 ∧
    (checkResult ⟨false, false, 3, true⟩ SslError.noneErr 4).1.fatal = false ∧
    (checkResult ⟨false, false, 3, true⟩ SslError.noneErr 4).2.2 = false := by
  decide

/-- C3 (amended): a Retryable classification whose increment takes the
retry counter above the configured bound forces Fatal (a Success
classification instead zeroes the counter before the bound check and never
triggers the retry-bound Fatal), and every Fatal outcome zeroes the
counter, surfaces the engine error and triggers disconnect
unconditionally. -/
theorem checkResult_retry_policy (s : SecState) (err : SslError) (retry : Nat) :
    (err.isWant = true → retry + 1 > s.maxRetry →
      (checkResult s err retry).1.fatal = true ∧
      (checkResult s err retry).2.1 = 0 ∧
      (checkResult s err retry).2.2 = true) ∧
    (err = SslError.noneErr → s.fatal = false →
      (checkResult s err retry).1.fatal = false ∧
      (checkResult s err retry).2.1 = 0 ∧
      (checkResult s err retry).2.2 = false) ∧
    ((checkResult s err retry).1.fatal = true →
      (checkResult s err retry).2.1 = 0 ∧
      (checkResult s err retry).2.2 = true) := by
  cases err <;> simp only [checkResult, SslError.isWant] <;>
    split_ifs <;> simp_all <;> omega

/-- Witness for C3 at concrete inputs: with bound 3 and counter 3, one more
retryable classification crosses the bound and is forced Fatal with the
counter zeroed and disconnect triggered. -/
theorem checkResult_retry_policy_witness :
    SslError.wantRead.isWant = true ∧ 3 + 1 > 3 ∧
    (checkResult ⟨false, false, 3, true⟩ SslError.wantRead 3).1.fatal = true ∧
    (checkResult ⟨false, false, 3, true⟩ SslError.wantRead 3).2.1 = 0 ∧
    (checkResult ⟨false, false, 3, true⟩ SslError.wantRead 3).2.2 = true :=
  ⟨rfl, by omega,
    ((checkResult_retry_policy ⟨false, false, 3, true⟩ SslError.wantRead 3).1 rfl (by decide)).1,
    ((checkResult_retry_policy ⟨false, false, 3, true⟩ SslError.wantRead 3).1 rfl (by decide)).2.1,
    ((checkResult_retry_policy ⟨false, false, 3, true⟩ SslError.wantRead 3).1 rfl (by decide)).2.2⟩

/-- C4 counterexample: a `secureRead` call made while the session is not
Ready (`isSecureReady()` false) but the SSL handle is non-null DOES perform
the engine-level decrypted read — the source gates only on
`m_ssl->m_ssl != NULL`, not on the Ready state, so the claim as stated
fails at this input. -/
theorem secureRead_engine_read_while_not_ready :
    isSecureReady ⟨false, false, 100000, true⟩ = false ∧
    (secureRead ⟨false, false, 100000, true⟩ 0 SslError.wantRead 0 0).2.2.2 = true := by
  decide

/-- C4 (amended): the gate for the engine-level read/write in `secureRead`
and `secureWrite` is nullness of the connection handle, not the Ready
state: the engine operation is performed exactly when the handle is
non-null, and with a null handle the call performs no engine operation and
leaves the state, the counter and the out-parameter unchanged. -/
theorem secure_read_write_gate (s : SecState) (retry : Nat) (err : SslError)
    (engineN rIn wIn : Int) :
    ((secureRead s retry err engineN rIn).2.2.2 = s.sslPresent) ∧
    ((secureWrite s retry err engineN wIn).2.2.2 = s.sslPresent) ∧
    (s.sslPresent = false →
      secureRead s retry err engineN rIn = (s, retry, rIn, false) ∧
      secureWrite s retry err engineN wIn = (s, retry, wIn, false)) := by
  cases hs : s.sslPresent
  · simp [secureRead, secureWrite, hs]
  · refine ⟨?_, ?_, by simp [hs]⟩ <;>
      · simp only [secureRead, secureWrite, hs, if_true]
        split
        · rfl
        · split <;> rfl

/-- Witness for C4 at a concrete input: with a null SSL handle, neither
read nor write touches the engine and the out-parameters come back
unchanged. -/
theorem secure_read_write_gate_witness :
    secureRead ⟨false, false, 100000, false⟩ 0 SslError.wantRead 0 7 =
      (⟨false, false, 100000, false⟩, 0, 7, false) ∧
    secureWrite ⟨false, false, 100000, false⟩ 0 SslError.wantRead 0 8 =
      (⟨false, false, 100000, false⟩, 0, 8, false) :=
  (secure_read_write_gate ⟨false, false, 100000, false⟩ 0 SslError.wantRead 0 7 8).2.2 rfl

/-- C5 counterexample: teardown invoked from explicit `close()` with a null
connection handle still performs an engine operation: the source calls
`SSL_shutdown(m_ssl->m_ssl)` unconditionally, with no null check, so the
claim as stated fails at this input. -/
theorem close_shutdown_on_null_handle :
    (closeStep false ⟨false, false⟩).2.2 = [EngineOp.shutdown] ∧
    (closeStep false ⟨false, false⟩).2.2 ≠ [] := by
  decide

/-- C5 (amended): the destructor's release path frees both handles,
shutdown before free on the connection handle and connection handle before
engine context, is idempotent (a second run changes nothing and performs no
engine operation), performs no engine operation when both handles are
already null, and is the only path that releases the handles —
`close()` releases neither handle, but it invokes the engine shutdown
unconditionally, even on a null connection handle. -/
theorem destructor_close_teardown (fatal : Bool) (h : SslHandles) :
    ((destructorStep fatal h).2.1 = ⟨false, false⟩) ∧
    (destructorStep (destructorStep fatal h).1 (destructorStep fatal h).2.1 =
      (true, ⟨false, false⟩, [])) ∧
    ((destructorStep fatal h).2.2.Sublist
      [EngineOp.shutdown, EngineOp.freeSsl, EngineOp.freeCtx]) ∧
    (h = ⟨false, false⟩ → (destructorStep fatal h).2.2 = []) ∧
    ((closeStep fatal h).2.1 = h) := by
  cases h with
  | mk hs hc => cases fatal <;> cases hs <;> cases hc <;> decide

/-- Witness for C5 at a concrete input: destruction with both handles
already null performs no engine operation. -/
theorem destructor_close_teardown_witness :
    (destructorStep false ⟨false, false⟩).2.2 = [] :=
  (destructor_close_teardown false ⟨false, false⟩).2.2.2.1 rfl

/-- C6 (code defect): `verifyCertFingerprint` performs the digest call even
when no peer certificate is present — the source passes the
`SSL_get_peer_certificate` result straight to `X509_digest` without a null
check, so an absent certificate does not make it return failure before the
digest-and-lookup path (the absent-certificate failure lives only in
`showCertificate`, which runs after verification).  A non-positive digest
result does make it return false. -/
theorem verifyCertFingerprint_digests_absent_cert :
    (verifyCertFingerprint none 1 (List.replicate 20 171) (some [])).2 = true ∧
    (verifyCertFingerprint none 0 (List.replicate 20 171) (some [])).1 = false := by
  decide

end SecureSocket
